import Mathlib

/-!
Verification of the instagram-to-mealie recipe scraper core
(`src/scrapers/ai_service.py`, `src/scrapers/scrape_for_mealie.py`).

The development shallowly embeds the response-extraction pipeline
(`extract_json_from_response`), the chat element-selection and prompt-send
flow (`initialize_chat`, `send_raw_prompt`) and the fragment-assembly run
(`scrape_recipe_for_mealie`).  Browser effects (Selenium calls, filesystem
writes) are modelled as explicit environment records whose fields record the
outcome of each effectful step; Python exceptions become `Option`/`Except`
values; `json.loads` becomes the executable parser `Json.parse` below.
-/

/-- JSON values as produced by `json.loads`.  Numeric literals are kept as
their source lexeme (the numeric value plays no role in any claim). -/
inductive Json where
  | null : Json
  | bool : Bool → Json
  | num : String → Json
  | str : String → Json
  | arr : List Json → Json
  | obj : List (String × Json) → Json

/-- The opening-brace character, written via its code point. -/
def obr : Char := Char.ofNat 123

/-- The closing-brace character, written via its code point. -/
def cbr : Char := Char.ofNat 125

/-- The backtick character, written via its code point. -/
def tick : Char := Char.ofNat 96

/-- JSON insignificant whitespace (the four characters `json.loads` skips). -/
def jsonWs (c : Char) : Bool :=
  c = ' ' || c = '\t' || c = '\n' || c = '\r'

/-- Drop leading JSON whitespace. -/
def skipWs (cs : List Char) : List Char := cs.dropWhile jsonWs

/-- Value of a hexadecimal digit, if any. -/
def hexVal (c : Char) : Option Nat :=
  if '0' ≤ c ∧ c ≤ '9' then some (c.toNat - 48)
  else if 'a' ≤ c ∧ c ≤ 'f' then some (c.toNat - 87)
  else if 'A' ≤ c ∧ c ≤ 'F' then some (c.toNat - 55)
  else none

/-- The character denoted by a single-character JSON escape. -/
def escChar (c : Char) : Option Char :=
  if c = '"' then some '"'
  else if c = '\\' then some '\\'
  else if c = '/' then some '/'
  else if c = 'b' then some (Char.ofNat 8)
  else if c = 'f' then some (Char.ofNat 12)
  else if c = 'n' then some '\n'
  else if c = 'r' then some '\r'
  else if c = 't' then some '\t'
  else none

/-- Parse the body of a JSON string (the opening quote already consumed),
returning the decoded characters and the input after the closing quote. -/
def parseStrChars : List Char → Option (List Char × List Char)
  | [] => none
  | c :: rest =>
    if c = '"' then some ([], rest)
    else if c = '\\' then
      match rest with
      | [] => none
      | e :: rest2 =>
        if e = 'u' then
          match rest2 with
          | a :: b :: c2 :: d :: rest3 =>
            match hexVal a, hexVal b, hexVal c2, hexVal d with
            | some ha, some hb, some hc, some hd =>
              match parseStrChars rest3 with
              | some (s, r) =>
                some (Char.ofNat (((ha * 16 + hb) * 16 + hc) * 16 + hd) :: s, r)
              | none => none
            | _, _, _, _ => none
          | _ => none
        else
          match escChar e with
          | some ec =>
            match parseStrChars rest2 with
            | some (s, r) => some (ec :: s, r)
            | none => none
          | none => none
    else
      match parseStrChars rest with
      | some (s, r) => some (c :: s, r)
      | none => none

/-- Parse an optional exponent part of a numeric literal. -/
def numExpPart : List Char → Option (List Char × List Char)
  | [] => some ([], [])
  | c :: rest =>
    if c = 'e' ∨ c = 'E' then
      match rest with
      | s :: r2 =>
        if s = '+' ∨ s = '-' then
          let ds := r2.takeWhile Char.isDigit
          if ds = [] then none else some (c :: s :: ds, r2.drop ds.length)
        else
          let ds := rest.takeWhile Char.isDigit
          if ds = [] then none else some (c :: ds, rest.drop ds.length)
      | [] => none
    else some ([], c :: rest)

/-- Parse an optional fraction part (followed by an optional exponent). -/
def numFracPart : List Char → Option (List Char × List Char)
  | [] => some ([], [])
  | c :: rest =>
    if c = '.' then
      let ds := rest.takeWhile Char.isDigit
      if ds = [] then none
      else
        match numExpPart (rest.drop ds.length) with
        | some (e, r) => some ('.' :: ds ++ e, r)
        | none => none
    else
      match numExpPart (c :: rest) with
      | some (e, r) => some (e, r)
      | none => none

/-- Parse a JSON numeric literal (strict grammar: no leading zeros, no bare
sign), returning its lexeme. -/
def parseNumber (cs : List Char) : Option (String × List Char) :=
  let sgnSplit : List Char × List Char :=
    match cs with
    | c :: rest => if c = '-' then ([c], rest) else ([], cs)
    | [] => ([], [])
  match sgnSplit.2 with
  | c :: rest =>
    if c = '0' then
      match numFracPart rest with
      | some (f, r) => some (String.mk (sgnSplit.1 ++ c :: f), r)
      | none => none
    else if c.isDigit then
      let ds := rest.takeWhile Char.isDigit
      match numFracPart (rest.drop ds.length) with
      | some (f, r) => some (String.mk (sgnSplit.1 ++ c :: ds ++ f), r)
      | none => none
    else none
  | [] => none

mutual

/-- Fuel-indexed JSON value parser; fuel `length + 1` always suffices since
every recursive call follows the consumption of at least one character. -/
def parseVal : Nat → List Char → Option (Json × List Char)
  | 0, _ => none
  | f + 1, cs0 =>
    match skipWs cs0 with
    | [] => none
    | c :: rest =>
      if c = '"' then
        match parseStrChars rest with
        | some (s, r) => some (Json.str (String.mk s), r)
        | none => none
      else if c = obr then
        match parseObjRest f true rest with
        | some (ms, r) => some (Json.obj ms, r)
        | none => none
      else if c = '[' then
        match parseArrRest f true rest with
        | some (xs, r) => some (Json.arr xs, r)
        | none => none
      else if c = 't' then
        match rest with
        | 'r' :: 'u' :: 'e' :: r => some (Json.bool true, r)
        | _ => none
      else if c = 'f' then
        match rest with
        | 'a' :: 'l' :: 's' :: 'e' :: r => some (Json.bool false, r)
        | _ => none
      else if c = 'n' then
        match rest with
        | 'u' :: 'l' :: 'l' :: r => some (Json.null, r)
        | _ => none
      else
        match parseNumber (c :: rest) with
        | some (lex, r) => some (Json.num lex, r)
        | none => none

/-- Parse object members after the opening brace; `allowEnd` permits an
immediately closing brace (true only before the first member, so a trailing
comma is rejected as in `json.loads`). -/
def parseObjRest : Nat → Bool → List Char → Option (List (String × Json) × List Char)
  | 0, _, _ => none
  | f + 1, allowEnd, cs0 =>
    match skipWs cs0 with
    | [] => none
    | c :: rest =>
      if c = cbr then if allowEnd then some ([], rest) else none
      else if c = '"' then
        match parseStrChars rest with
        | none => none
        | some (k, r1) =>
          match skipWs r1 with
          | [] => none
          | c2 :: r3 =>
            if c2 = ':' then
              match parseVal f r3 with
              | none => none
              | some (v, r4) =>
                match skipWs r4 with
                | [] => none
                | c3 :: r6 =>
                  if c3 = ',' then
                    match parseObjRest f false r6 with
                    | some (ms, r7) => some ((String.mk k, v) :: ms, r7)
                    | none => none
                  else if c3 = cbr then some ([(String.mk k, v)], r6)
                  else none
            else none
      else none

/-- Parse array elements after the opening bracket; `allowEnd` as above. -/
def parseArrRest : Nat → Bool → List Char → Option (List Json × List Char)
  | 0, _, _ => none
  | f + 1, allowEnd, cs0 =>
    match skipWs cs0 with
    | [] => none
    | c :: rest =>
      if c = ']' then if allowEnd then some ([], rest) else none
      else
        match parseVal f (c :: rest) with
        | none => none
        | some (v, r1) =>
          match skipWs r1 with
          | [] => none
          | c2 :: r2 =>
            if c2 = ',' then
              match parseArrRest f false r2 with
              | some (xs, r3) => some (v :: xs, r3)
              | none => none
            else if c2 = ']' then some ([v], r2)
            else none

end

/-- Embedding of `json.loads`: parse a complete JSON document, rejecting
trailing non-whitespace (Python's "Extra data" error becomes `none`). -/
def Json.parse (s : String) : Option Json :=
  match parseVal (s.data.length + 1) s.data with
  | some (v, r) => if skipWs r = [] then some v else none
  | none => none

example : Json.parse "null" = some Json.null := rfl
example : Json.parse "[1, 2]" = some (Json.arr [Json.num "1", Json.num "2"]) := rfl
example : Json.parse "\x7b\"name\": \"B\"\x7d" = some (Json.obj [("name", Json.str "B")]) := rfl
example : Json.parse "\x7b\"a\": \x7b\"b\": 1\x7d\x7d" =
    some (Json.obj [("a", Json.obj [("b", Json.num "1")])]) := rfl
example : Json.parse "\x7b\"a\": \x7b\"b\": 1\x7d" = none := rfl
example : Json.parse "not json" = none := rfl
example : Json.parse "" = none := rfl

/-!
Response extraction (`extract_json_from_response`, ai_service.py lines
325-375).

The BeautifulSoup parse of the HTML response is abstracted as an `HtmlDoc`:
the texts of the `code` elements carrying class `language-json` in document
order, the `strip=True` texts of the `pre` elements in document order, and
the full visible text (`soup.get_text`).  The regex scans of the source are
embedded as executable character scans below.
-/

/-- The parsed form of one HTML response (the fields BeautifulSoup queries
in `extract_json_from_response` observe). -/
structure HtmlDoc where
  codeJsonBlocks : List String
  preBlocks : List String
  fullText : String

/-- Whether a string starts with the given character (the `startswith`
checks of the source, on the character level). -/
def headIs (s : String) (c : Char) : Bool :=
  match s.data with
  | d :: _ => d = c
  | [] => false

/-- Python string whitespace (the characters `str.strip` removes). -/
def pyWs (c : Char) : Bool :=
  c = ' ' || c = '\t' || c = '\n' || c = '\r' || c = Char.ofNat 11 || c = Char.ofNat 12

/-- Embedding of Python `str.strip()`. -/
def pyStrip (s : String) : String :=
  String.mk (((s.data.dropWhile pyWs).reverse.dropWhile pyWs).reverse)

/-- Embedding of Python `str.lower()` (the identifiers compared here are
ASCII). -/
def lowerStr (s : String) : String :=
  String.mk (s.data.map Char.toLower)

/-- Scan to just past the next triple-backtick fence, if any. -/
def dropToFence : List Char → Option (List Char)
  | a :: b :: c :: rest =>
    if a = tick ∧ b = tick ∧ c = tick then some rest
    else dropToFence (b :: c :: rest)
  | _ => none

/-- Take characters up to the next triple-backtick fence, returning the
content and the input past the fence. -/
def takeToFence : List Char → Option (List Char × List Char)
  | a :: b :: c :: rest =>
    if a = tick ∧ b = tick ∧ c = tick then some ([], rest)
    else
      match takeToFence (b :: c :: rest) with
      | some (x, r) => some (a :: x, r)
      | none => none
  | _ => none

/-- Remove a leading case-insensitive `json` language tag followed by a
newline, as the optional group of the fence regex consumes it. -/
def stripJsonTag (cs : List Char) : List Char :=
  match cs with
  | j :: s :: o :: n :: nl :: rest =>
    if j.toLower = 'j' ∧ s.toLower = 's' ∧ o.toLower = 'o' ∧ n.toLower = 'n' ∧ nl = '\n'
    then rest else cs
  | _ => cs

/-- Fuel-indexed scan for the non-overlapping fenced blocks the pattern
matches; fuel `length + 1` suffices since each block consumes six fence
characters. -/
def fencedBlocksF : Nat → List Char → List (List Char)
  | 0, _ => []
  | f + 1, cs =>
    match dropToFence cs with
    | none => []
    | some afterOpen =>
      match takeToFence afterOpen with
      | none => []
      | some (content, rest) => stripJsonTag content :: fencedBlocksF f rest

/-- Embedding of the `findall` over the triple-backtick fence pattern
(ai_service.py line 354). -/
def fencedBlocks (s : String) : List String :=
  (fencedBlocksF (s.data.length + 1) s.data).map (fun l => String.mk l)

/-- Take characters up to (and excluding) the next closing brace, returning
them together with the input past that brace. -/
def takeToClose : List Char → Option (List Char × List Char)
  | [] => none
  | c :: cs =>
    if c = cbr then some ([], cs)
    else
      match takeToClose cs with
      | some (body, rest) => some (c :: body, rest)
      | none => none

/-- Fuel-indexed embedding of the non-greedy brace regex: each candidate
runs from an opening brace to the nearest following closing brace, matches
do not overlap, and scanning resumes after each match.  Every step consumes
at least one character, so fuel `length + 1` always suffices. -/
def braceCandsF : Nat → List Char → List (List Char)
  | 0, _ => []
  | f + 1, cs =>
    match cs with
    | [] => []
    | c :: rest =>
      if c = obr then
        match takeToClose rest with
        | some (body, after) => (obr :: (body ++ [cbr])) :: braceCandsF f after
        | none => []
      else braceCandsF f rest

/-- The brace-delimited candidate substrings of the full text
(ai_service.py line 362). -/
def braceCandidates (s : String) : List String :=
  (braceCandsF (s.data.length + 1) s.data).map (fun l => String.mk l)

/-- Insert into a list sorted by non-increasing length: the new entry goes
before the first entry of length at most its own.  In the head-insertion
sort below every entry of the sorted tail comes later in the original list,
so placing the new entry before equal-length entries is the stable
position. -/
def insertDesc (s : String) : List String → List String
  | [] => [s]
  | t :: ts => if t.length ≤ s.length then s :: t :: ts else t :: insertDesc s ts

/-- Stable sort by descending length, as `sorted(candidates, key=minus len)`
(ai_service.py line 364): equal-length candidates keep their original
order. -/
def sortDescLen : List String → List String
  | [] => []
  | s :: ss => insertDesc s (sortDescLen ss)

example : sortDescLen ["aa", "bb"] = ["aa", "bb"] := rfl
example : sortDescLen ["b", "aaa", "cc", "dd"] = ["aaa", "cc", "dd", "b"] := rfl

/-- Strategy 1: parse the text of the last `language-json` code block
(ai_service.py lines 334-340); `none` both when no such block exists and
when the last one fails to parse. -/
def codeBlockStage (d : HtmlDoc) : Option Json :=
  match d.codeJsonBlocks.getLast? with
  | some b => Json.parse b
  | none => none

/-- Strategy 2: parse the first `pre` block whose stripped text starts with
an opening brace or bracket and parses (lines 343-350). -/
def preStage (d : HtmlDoc) : Option Json :=
  (d.preBlocks.filter (fun t => headIs t obr || headIs t '[')).findSome? Json.parse

/-- Strategy 3: parse the first fenced block whose stripped content parses
(lines 353-359). -/
def fenceStage (d : HtmlDoc) : Option Json :=
  (fencedBlocks d.fullText).findSome? (fun b => Json.parse (pyStrip b))

/-- Strategy 4: parse the brace-delimited candidates, longest first
(lines 361-369). -/
def braceStage (d : HtmlDoc) : Option Json :=
  (sortDescLen (braceCandidates d.fullText)).findSome? Json.parse

example : braceCandidates "x \x7b\"a\": \x7b\"b\": 1\x7d\x7d y" =
    ["\x7b\"a\": \x7b\"b\": 1\x7d"] := rfl

/-- The fall-through chain after the code-block strategy. -/
def lateStages (d : HtmlDoc) : Option Json :=
  match preStage d with
  | some v => some v
  | none =>
    match fenceStage d with
    | some v => some v
    | none => braceStage d

/-- Embedding of `extract_json_from_response` (ai_service.py lines 325-375):
the strict-to-loose fallback chain over the parsed response.  All failure
paths of the source return `None`, which totality renders as `none`. -/
def extract_json_from_response (d : HtmlDoc) : Option Json :=
  match codeBlockStage d with
  | some v => some v
  | none => lateStages d

example : extract_json_from_response
    { codeJsonBlocks := ["\x7b\"name\": \"B\"\x7d"], preBlocks := [],
      fullText := "\x7b\"name\": \"B\"\x7d" }
    = some (Json.obj [("name", Json.str "B")]) := rfl

example : extract_json_from_response
    { codeJsonBlocks := [], preBlocks := [],
      fullText := "text \x7b\"a\": 1\x7d more" }
    = some (Json.obj [("a", Json.num "1")]) := rfl

example : extract_json_from_response
    { codeJsonBlocks := [], preBlocks := [],
      fullText := "text \x7b\"a\": \x7b\"b\": 1\x7d\x7d more" }
    = none := rfl

/-!
Fragment assembly (`scrape_recipe_for_mealie`, scrape_for_mealie.py).

The recipe document `full_json` is a Python dict; it is embedded as an
association list without duplicate keys whose order tracks dict insertion
order.  `full_json.update(fragment)` is embedded as `dictUpdate`.
-/

/-- First value stored under a key. -/
def lookupJ : List (String × Json) → String → Option Json
  | [], _ => none
  | (k1, v) :: rest, k => if k1 = k then some v else lookupJ rest k

/-- Embedding of Python `dict.update`: keys already present keep their
position but receive the fragment's value; keys new to the document are
appended in fragment order. -/
def dictUpdate (base frag : List (String × Json)) : List (String × Json) :=
  base.map (fun p => (p.1, (lookupJ frag p.1).getD p.2)) ++
    frag.filter (fun p => (lookupJ base p.1).isNone)

/-- Embedding of one `if fragment_res: full_json.update(fragment_res)` step:
a `None` fragment and an empty (Python-falsy) fragment are both skipped
(scrape_for_mealie.py lines 98-141). -/
def mergeFrag (doc : List (String × Json)) (frag : Option (List (String × Json))) :
    List (String × Json) :=
  match frag with
  | some [] => doc
  | some (p :: ps) => dictUpdate doc (p :: ps)
  | none => doc

/-- The fixed interaction-statistics fragment `json_parts[2]`
(scrape_for_mealie.py lines 66-73). -/
def interactionStatisticPart : List (String × Json) :=
  [("interactionStatistic", Json.obj
    [("@type", Json.str "InteractionCounter"),
     ("interactionType", Json.str "https://schema.org/Comment"),
     ("userInteractionCount", Json.str "140")])]

/-- The fixed diet-suitability fragment `json_parts[5]`
(scrape_for_mealie.py lines 84-86). -/
def suitableForDietPart : List (String × Json) :=
  [("suitableForDiet", Json.null)]

/-- Outcomes of the collaborators one assembly run consults, in the order
the source consults them.  `caption = none` models `get_caption_from_post`
yielding nothing; `browserOk = false` models `open_browser` failing (its own
exception and the falsy return are collapsed into the same abort);
`initOk` models the boolean result of chat initialization; the five
fragment fields model the parsed `process_recipe_part` results, with `none`
for a failed prompt. -/
structure ScrapeEnv where
  caption : Option (String × Option String)
  browserOk : Bool
  initOk : Bool
  instructionsRes : Option (List (String × Json))
  infoRes : Option (List (String × Json))
  ingredientsRes : Option (List (String × Json))
  nameRes : Option (List (String × Json))
  nutritionRes : Option (List (String × Json))
  today : String
  mealieResult : Json

/-- The success value of one run: the returned result dict plus the
assembled document handed to the recipe sink (its JSON-LD serialization is
not modelled). -/
structure ScrapeSuccess where
  url : String
  status : String
  doc : List (String × Json)
  result : Json

/-- Embedding of `scrape_recipe_for_mealie` (scrape_for_mealie.py): fatal
conditions raise (become `Except.error` with the source's message), each
field-group fragment is merged only when truthy, the two fixed fragments
are merged unconditionally, and the date stamp is written last. -/
def scrape_recipe_for_mealie (url : String) (env : ScrapeEnv) :
    Except String ScrapeSuccess :=
  match env.caption with
  | none => Except.error "No caption or image found"
  | some _ =>
    if env.browserOk = false then Except.error "Failed to open browser"
    else if env.initOk = false then
      Except.error "Failed to initialize chat with recipe context"
    else
      let d1 := mergeFrag [] env.instructionsRes
      let d2 := mergeFrag d1 env.infoRes
      let d3 := mergeFrag d2 env.ingredientsRes
      let d4 := dictUpdate d3 interactionStatisticPart
      let d5 := mergeFrag d4 env.nameRes
      let d6 := mergeFrag d5 env.nutritionRes
      let d7 := dictUpdate d6 suitableForDietPart
      let d8 := dictUpdate d7 [("datePublished", Json.str env.today)]
      Except.ok { url := url, status := "success", doc := d8, result := env.mealieResult }

/-!
Element selection and prompt sending (`initialize_chat`, `send_raw_prompt`,
ai_service.py).

A DOM input or button candidate is reduced to the attributes the source
inspects: `id`, `name`, and the boolean outcome of the `_is_visible`
JavaScript probe (a probe exception yields `False` in the source and is
folded into the field).  Each Selenium step that can raise is an
environment field recording its outcome; each debug-dump site records its
artifact tag when its own filesystem write succeeds, exceptions of the
write being swallowed inside the helper as in the source.
-/

/-- A located DOM candidate, reduced to the attributes the filters read. -/
structure Candidate where
  id : Option String
  name : Option String
  visible : Bool
deriving DecidableEq

/-- The known hidden decoy check of ai_service.py lines 77 and 214:
the candidate's id or name, lowercased, equals `state_hidden`. -/
def isDecoyField (c : Candidate) : Bool :=
  (lowerStr (c.id.getD "") == "state_hidden") || (lowerStr (c.name.getD "") == "state_hidden")

/-- The visibility-and-decoy filter shared by both functions. -/
def visibleCandidates (cs : List Candidate) : List Candidate :=
  cs.filter (fun c => c.visible && !(isDecoyField c))

/-- Page and effect outcomes `initialize_chat` observes.  `shadowInputs` is
the shadow-root query result (host absence and query exceptions both yield
the empty list in the source); `lightInputs = none` models the light-DOM
query raising; `fillOk` covers the focus/set-value scripts; the two send
fields model the single-element button lookups (`none` for not-found or
exception); `writeOk` records whether the debug-HTML writes themselves
succeed. -/
structure InitEnv where
  shadowRootPresent : Bool
  shadowInputs : List Candidate
  lightInputs : Option (List Candidate)
  fillOk : Bool
  shadowSendBtn : Option Candidate
  lightSendBtn : Option Candidate
  clickOk : Bool
  writeOk : Bool
deriving DecidableEq

/-- Observable outcome of `initialize_chat`: its boolean return, the input
element the prompt text was directed at, and the debug artifacts actually
written. -/
structure InitOut where
  ok : Bool
  target : Option Candidate
  artifacts : List String
deriving DecidableEq

/-- One `_write_debug_html` call (ai_service.py lines 33-41): the artifact
appears only when the write succeeds; a failing write is caught inside the
helper. -/
def initDump (env : InitEnv) (tag : String) : List String :=
  if env.writeOk then [tag] else []

/-- Candidate gathering of `initialize_chat` lines 44-64: shadow-root
candidates when any, otherwise the light-DOM query. -/
def initGather (env : InitEnv) : Option (List Candidate) :=
  let fromShadow := if env.shadowRootPresent then env.shadowInputs else []
  if fromShadow ≠ [] then some fromShadow else env.lightInputs

/-- Send-button lookup of `initialize_chat` lines 111-122: shadow root
first, light DOM second. -/
def initSendButton (env : InitEnv) : Option Candidate :=
  match (if env.shadowRootPresent then env.shadowSendBtn else none) with
  | some b => some b
  | none => env.lightSendBtn

/-- Embedding of `initialize_chat` (ai_service.py lines 13-157). -/
def initialize_chat (env : InitEnv) : InitOut :=
  match initGather env with
  | none => ⟨false, none, initDump env "no_input"⟩
  | some cands =>
    match visibleCandidates cands with
    | [] => ⟨false, none, initDump env "no_visible_input"⟩
    | el :: _ =>
      if env.fillOk = false then ⟨false, some el, initDump env "fill_submit_error"⟩
      else
        match initSendButton env with
        | none => ⟨false, some el, initDump env "no_send_button"⟩
        | some _ =>
          if env.clickOk then ⟨true, some el, []⟩
          else ⟨false, some el, initDump env "fill_submit_error"⟩

/-- Page and effect outcomes `send_raw_prompt` observes.  Fields as for
`InitEnv`; additionally `forcedSetOk` covers the scripts of the forced
fallback on the first raw candidate, `diagWriteOk` the candidate
diagnostics JSON write, `waitCleared` whether the bounded wait saw the
submit control re-enable before timing out, and `pageSource` the HTML the
final read returns. -/
structure SendEnv where
  shadowRootPresent : Bool
  shadowInputs : List Candidate
  lightInputs : Option (List Candidate)
  forcedSetOk : Bool
  setValueOk : Bool
  shadowSends : List Candidate
  lightSends : List Candidate
  clickOk : Bool
  clickFallbackOk : Bool
  waitCleared : Bool
  pageSource : String
  dumpOk : Bool
  diagWriteOk : Bool
deriving DecidableEq

/-- Observable outcome of `send_raw_prompt`: the returned HTML (or `none`),
the input element the prompt was directed at (`input_el` of the source),
and the debug artifacts actually written. -/
structure SendOut where
  response : Option String
  target : Option Candidate
  artifacts : List String
deriving DecidableEq

/-- One `_dump_debug` call (ai_service.py lines 167-174); as `initDump`. -/
def sendDump (env : SendEnv) (tag : String) : List String :=
  if env.dumpOk then [tag] else []

/-- The candidate-diagnostics JSON write (ai_service.py lines 218-235),
likewise swallowing its own failure. -/
def diagDump (env : SendEnv) : List String :=
  if env.diagWriteOk then ["candidates_json"] else []

/-- Candidate gathering of `send_raw_prompt` lines 176-203. -/
def sendGather (env : SendEnv) : Option (List Candidate) :=
  let fromShadow := if env.shadowRootPresent then env.shadowInputs else []
  if fromShadow ≠ [] then some fromShadow else env.lightInputs

/-- Send-button gathering of lines 271-286: shadow list when nonempty,
otherwise the light-DOM list (query exceptions yield the empty list). -/
def sendButtons (env : SendEnv) : List Candidate :=
  let fromShadow := if env.shadowRootPresent then env.shadowSends else []
  if fromShadow ≠ [] then fromShadow else env.lightSends

/-- The tail of `send_raw_prompt` after `input_el` is fixed (lines
255-313): set the value, find a visible send control, click it, wait for
the disabled state to clear — a wait timeout is logged and ignored — and
return the page source. -/
def sendSubmitPhase (env : SendEnv) (arts : List String) (el : Candidate) : SendOut :=
  if env.setValueOk = false then ⟨none, some el, arts ++ sendDump env "set_value_failed"⟩
  else
    match (sendButtons env).filter (fun c => c.visible) with
    | [] => ⟨none, some el, arts ++ sendDump env "no_send_button"⟩
    | _ :: _ =>
      if env.clickOk || env.clickFallbackOk then ⟨some env.pageSource, some el, arts⟩
      else ⟨none, some el, arts ++ sendDump env "send_click_failed"⟩

/-- Embedding of `send_raw_prompt` (ai_service.py lines 160-322).  When no
candidate passes the filter, the candidate diagnostics are dumped and a
forced fallback on the first raw candidate is attempted; an empty raw list
makes that indexing raise, which lands in the same handler as a failing
forced set. -/
def send_raw_prompt (env : SendEnv) : SendOut :=
  match sendGather env with
  | none => ⟨none, none, sendDump env "no_input"⟩
  | some cands =>
    match visibleCandidates cands with
    | el :: _ => sendSubmitPhase env [] el
    | [] =>
      let arts := diagDump env
      match cands with
      | [] => ⟨none, none, arts ++ sendDump env "forced_fallback_failed"⟩
      | c :: _ =>
        if env.forcedSetOk then sendSubmitPhase env arts c
        else ⟨none, none, arts ++ sendDump env "forced_fallback_failed"⟩

/-!
Lemmas about the merge operation.
-/

theorem lookupJ_append (a b : List (String × Json)) (k : String) :
    lookupJ (a ++ b) k = (lookupJ a k).elim (lookupJ b k) some := by
  induction a with
  | nil => simp [lookupJ]
  | cons p a ih =>
    obtain ⟨k1, v⟩ := p
    by_cases h : k1 = k <;> simp [lookupJ, h, ih]

theorem lookupJ_mapGetD (a frag : List (String × Json)) (k : String) :
    lookupJ (a.map (fun p => (p.1, (lookupJ frag p.1).getD p.2))) k
      = (lookupJ a k).map (fun v => (lookupJ frag k).getD v) := by
  induction a with
  | nil => simp [lookupJ]
  | cons p a ih =>
    obtain ⟨k1, v⟩ := p
    by_cases h : k1 = k <;> simp [lookupJ, h, ih]

theorem lookupJ_filterNew (base frag : List (String × Json)) (k : String) :
    lookupJ (frag.filter (fun p => (lookupJ base p.1).isNone)) k
      = if (lookupJ base k).isNone then lookupJ frag k else none := by
  induction frag with
  | nil => simp [lookupJ]
  | cons p frag ih =>
    obtain ⟨k1, v⟩ := p
    by_cases h : k1 = k
    · subst h
      cases hb : (lookupJ base k1).isNone <;> simp [lookupJ, hb, List.filter_cons, ih]
    · cases hb : (lookupJ base k1).isNone <;> simp [lookupJ, hb, h, List.filter_cons, ih]

/-- Lookup after `dict.update`: the fragment's binding wins whenever the
fragment carries the key, the base's binding survives otherwise. -/
theorem lookupJ_dictUpdate (a b : List (String × Json)) (k : String) :
    lookupJ (dictUpdate a b) k = (lookupJ b k).elim (lookupJ a k) some := by
  unfold dictUpdate
  rw [lookupJ_append, lookupJ_mapGetD, lookupJ_filterNew]
  cases ha : lookupJ a k <;> cases hb : lookupJ b k <;> simp

/-!
Claim theorems.
-/

/-- C2: merging recipe fragments is last-write-wins over whole top-level
keys — after merging a first and then a second fragment, any key the second
fragment carries is bound to the second fragment's entire value in the
resulting document, regardless of what the first fragment or the prior
document stored there; nested objects are never merged field-by-field. -/
theorem merge_last_write_wins (doc f1 f2 : List (String × Json)) (k : String) (v : Json)
    (h : lookupJ f2 k = some v) :
    lookupJ (mergeFrag (mergeFrag doc (some f1)) (some f2)) k = some v := by
  cases f2 with
  | nil => simp [lookupJ] at h
  | cons p ps =>
    simp only [mergeFrag]
    rw [lookupJ_dictUpdate, h]
    rfl

/-- Witness for C2, the spec's own example: fragment `name = A` then
fragment `name = B` leaves `name = B`. -/
theorem merge_last_write_wins_witness :
    lookupJ (mergeFrag (mergeFrag [] (some [("name", Json.str "A")]))
      (some [("name", Json.str "B")])) "name" = some (Json.str "B") :=
  merge_last_write_wins [] [("name", Json.str "A")] [("name", Json.str "B")]
    "name" (Json.str "B") rfl

/-- C6 (amended): an assembly run returns a success result exactly when the
caption is obtained, the browser opens, and chat initialization succeeds;
in particular the failure (`none` or empty fragment) of any individual
field-group prompt never aborts the run. -/
theorem assembly_success_iff (url : String) (env : ScrapeEnv) :
    (∃ r, scrape_recipe_for_mealie url env = Except.ok r ∧ r.status = "success")
      ↔ (env.caption.isSome = true ∧ env.browserOk = true ∧ env.initOk = true) := by
  obtain ⟨cap, b, i, i1, i2, i3, i4, i5, t, m⟩ := env
  cases cap <;> cases b <;> cases i <;> simp [scrape_recipe_for_mealie]

/-- Witness for C6 (amended): a run whose caption, browser, and
initialization all succeed returns success even though four of the five
field-group prompts failed. -/
theorem assembly_success_iff_witness :
    ∃ r, scrape_recipe_for_mealie "https://example.com/p/2"
      { caption := some ("Pasta with garlic and olive oil", some "thumb.png"),
        browserOk := true, initOk := true,
        instructionsRes := some [("recipeInstructions", Json.str "Cook the pasta.")],
        infoRes := none, ingredientsRes := none, nameRes := none, nutritionRes := none,
        today := "2026-10-12", mealieResult := Json.null }
      = Except.ok r ∧ r.status = "success" :=
  (assembly_success_iff "https://example.com/p/2"
    { caption := some ("Pasta with garlic and olive oil", some "thumb.png"),
      browserOk := true, initOk := true,
      instructionsRes := some [("recipeInstructions", Json.str "Cook the pasta.")],
      infoRes := none, ingredientsRes := none, nameRes := none, nutritionRes := none,
      today := "2026-10-12", mealieResult := Json.null }).mpr ⟨rfl, rfl, rfl⟩

/-- Counterexample to C6 as stated: a run whose caption is obtained and
whose chat initialization would succeed still aborts with an error when the
browser cannot be opened — a third fatal condition the claim omits. -/
theorem assembly_aborts_on_browser_failure :
    scrape_recipe_for_mealie "https://example.com/p/1"
      { caption := some ("Pasta with garlic and olive oil", none), browserOk := false,
        initOk := true, instructionsRes := none, infoRes := none, ingredientsRes := none,
        nameRes := none, nutritionRes := none, today := "2026-10-12",
        mealieResult := Json.null }
      = Except.error "Failed to open browser"
    ∧ (some ("Pasta with garlic and olive oil", none) : Option (String × Option String)).isSome
        = true := ⟨rfl, rfl⟩

/-- All strings any strategy of the extraction chain ever hands to
`json.loads` for a given response: the last tagged code block, the
qualifying `pre` texts, the stripped fenced blocks, and the sorted brace
candidates. -/
def jsonCandidates (d : HtmlDoc) : List String :=
  d.codeJsonBlocks.getLast?.toList
    ++ d.preBlocks.filter (fun t => headIs t obr || headIs t '[')
    ++ (fencedBlocks d.fullText).map pyStrip
    ++ sortDescLen (braceCandidates d.fullText)

/-- C7: when no strategy of the fallback chain finds anything parseable —
every candidate string any strategy would try fails to parse — the
extraction returns `none`; totality of the embedding reflects that the
source catches every exception on this path. -/
theorem no_json_returns_none (d : HtmlDoc)
    (h : (jsonCandidates d).all (fun s => (Json.parse s).isNone) = true) :
    extract_json_from_response d = none := by
  have h' : ∀ s ∈ jsonCandidates d, Json.parse s = none := by
    intro s hs
    exact Option.isNone_iff_eq_none.mp (List.all_eq_true.mp h s hs)
  have hA : ∀ s ∈ d.codeJsonBlocks.getLast?.toList, Json.parse s = none := by
    intro s hs
    exact h' s (by simp [jsonCandidates, hs])
  have hB : ∀ s ∈ d.preBlocks.filter (fun t => headIs t obr || headIs t '['),
      Json.parse s = none := by
    intro s hs
    exact h' s (by simp [jsonCandidates, hs])
  have hC : ∀ s ∈ (fencedBlocks d.fullText).map pyStrip, Json.parse s = none := by
    intro s hs
    exact h' s (by simp [jsonCandidates, hs])
  have hD : ∀ s ∈ sortDescLen (braceCandidates d.fullText), Json.parse s = none := by
    intro s hs
    exact h' s (by simp [jsonCandidates, hs])
  have h1 : codeBlockStage d = none := by
    unfold codeBlockStage
    cases hg : d.codeJsonBlocks.getLast? with
    | none => rfl
    | some b => exact hA b (by simp [hg])
  have h2 : preStage d = none := by
    unfold preStage
    exact List.findSome?_eq_none_iff.mpr hB
  have h3 : fenceStage d = none := by
    unfold fenceStage
    refine List.findSome?_eq_none_iff.mpr ?_
    intro b hb
    exact hC (pyStrip b) (List.mem_map_of_mem pyStrip hb)
  have h4 : braceStage d = none := by
    unfold braceStage
    exact List.findSome?_eq_none_iff.mpr hD
  unfold extract_json_from_response lateStages
  rw [h1, h2, h3, h4]

/-- Witness for C7: a response with junk in every channel extracts to
`none`. -/
theorem no_json_returns_none_witness :
    extract_json_from_response
      { codeJsonBlocks := ["hello"], preBlocks := ["\x7bbroken"],
        fullText := "nothing \x7b oops \x7d here" } = none :=
  no_json_returns_none
    { codeJsonBlocks := ["hello"], preBlocks := ["\x7bbroken"],
      fullText := "nothing \x7b oops \x7d here" } (by decide)

/-- C10: only the last `language-json` block is ever handed to the JSON
parser; the result of extraction is fully determined by that last block's
parse — earlier tagged blocks (`pre` here) are never consulted — and a
failed parse of the last block falls through to the `pre`-block strategy
and its successors. -/
theorem only_last_tagged_block_tried (d : HtmlDoc) (pre : List String) (b : String)
    (h : d.codeJsonBlocks = pre ++ [b]) :
    extract_json_from_response d =
      match Json.parse b with
      | some v => some v
      | none => lateStages d := by
  unfold extract_json_from_response codeBlockStage
  rw [h, List.getLast?_concat]

/-- Witness for C10: with a junk first block and a well-formed last block,
extraction returns the last block's value. -/
theorem only_last_tagged_block_tried_witness :
    extract_json_from_response
      { codeJsonBlocks := ["junk", "\x7b\"k\": 1\x7d"], preBlocks := [], fullText := "t" }
      = some (Json.obj [("k", Json.num "1")]) := by
  rw [only_last_tagged_block_tried
    { codeJsonBlocks := ["junk", "\x7b\"k\": 1\x7d"], preBlocks := [], fullText := "t" }
    ["junk"] "\x7b\"k\": 1\x7d" rfl]
  rfl

/-- C1 (amended): for every HTML input whose *last* `language-json` block
is well-formed, extraction returns that block's parsed value, regardless of
the earlier tagged blocks.  (The original claim — that the last
*well-formed* tagged block is returned — fails: when the last tagged block
is malformed, earlier well-formed tagged blocks are skipped entirely.) -/
theorem last_tagged_block_parsed (d : HtmlDoc) (pre : List String) (b : String) (v : Json)
    (h : d.codeJsonBlocks = pre ++ [b]) (hp : Json.parse b = some v) :
    extract_json_from_response d = some v := by
  unfold extract_json_from_response codeBlockStage
  rw [h, List.getLast?_concat]
  simp [hp]

/-- Witness for C1 (amended): a well-formed last tagged block is returned
even with a junk block before it. -/
theorem last_tagged_block_parsed_witness :
    extract_json_from_response
      { codeJsonBlocks := ["junk2", "\x7b\"name\": \"B\"\x7d"], preBlocks := [],
        fullText := "u" }
      = some (Json.obj [("name", Json.str "B")]) :=
  last_tagged_block_parsed
    { codeJsonBlocks := ["junk2", "\x7b\"name\": \"B\"\x7d"], preBlocks := [],
      fullText := "u" }
    ["junk2"] "\x7b\"name\": \"B\"\x7d" (Json.obj [("name", Json.str "B")]) rfl rfl

/-- Counterexample to C1 as stated: a response whose first tagged block is
well-formed (a nested object) but whose last tagged block is malformed
extracts to `none` — the well-formed tagged block is not returned, because
only the last tagged block is parsed and the fallback regex cannot recover
a nested object. -/
theorem earlier_wellformed_block_lost :
    Json.parse "\x7b\"a\": \x7b\"b\": 1\x7d\x7d"
      = some (Json.obj [("a", Json.obj [("b", Json.num "1")])])
    ∧ "\x7b\"a\": \x7b\"b\": 1\x7d\x7d"
        ∈ (["\x7b\"a\": \x7b\"b\": 1\x7d\x7d", "not json"] : List String)
    ∧ extract_json_from_response
        { codeJsonBlocks := ["\x7b\"a\": \x7b\"b\": 1\x7d\x7d", "not json"],
          preBlocks := [],
          fullText := "\x7b\"a\": \x7b\"b\": 1\x7d\x7d\nnot json" }
      = none :=
  ⟨rfl, List.mem_cons_self _ _, rfl⟩

/-!
Lemmas about the brace-candidate scan, for the loose-fallback claim.
-/

theorem braceCandsF_nil_of_no_open (f : Nat) (B : List Char) (hB : obr ∉ B) :
    braceCandsF f B = [] := by
  induction B generalizing f with
  | nil => cases f <;> rfl
  | cons b B ih =>
    cases f with
    | zero => rfl
    | succ f =>
      have hb : ¬(b = obr) := fun he => hB (he ▸ List.mem_cons_self b B)
      simp only [braceCandsF]
      rw [if_neg hb]
      exact ih f (fun hm => hB (List.mem_cons_of_mem b hm))

theorem braceCandsF_skip (A ys : List Char) (f : Nat) (hA : obr ∉ A) (hf : A.length ≤ f) :
    braceCandsF f (A ++ ys) = braceCandsF (f - A.length) ys := by
  induction A generalizing f with
  | nil => simp
  | cons a A ih =>
    cases f with
    | zero => exact absurd hf (by simp)
    | succ f =>
      have ha : ¬(a = obr) := fun he => hA (he ▸ List.mem_cons_self a A)
      simp only [List.cons_append, braceCandsF]
      rw [if_neg ha]
      simp only [List.length_cons, Nat.succ_sub_succ]
      exact ih f (fun hm => hA (List.mem_cons_of_mem a hm)) (Nat.le_of_succ_le_succ hf)

theorem takeToClose_mid (M B : List Char) (hM : cbr ∉ M) :
    takeToClose (M ++ cbr :: B) = some (M, B) := by
  induction M with
  | nil => simp [takeToClose]
  | cons m M ih =>
    have hm : ¬(m = cbr) := fun he => hM (he ▸ List.mem_cons_self m M)
    simp only [List.cons_append, List.append_eq, takeToClose]
    rw [if_neg hm, ih (fun hmm => hM (List.mem_cons_of_mem m hmm))]

/-- One step of the scan at an opening brace whose body is free of closing
braces: the minimal candidate is emitted and scanning resumes after it. -/
theorem braceCandsF_open (f : Nat) (M B : List Char) (hM : cbr ∉ M) :
    braceCandsF (f + 1) (obr :: (M ++ cbr :: B))
      = (obr :: (M ++ [cbr])) :: braceCandsF f B := by
  simp only [braceCandsF, if_true]
  rw [takeToClose_mid M B hM]

/-- Supporting lemma for the loose fallback: when the full text isolates a
single flat object (no opening brace before it, no closing brace inside it,
no opening brace after it), that object is the only brace candidate and its
parsed value is recovered. -/
theorem isolated_flat_object_recovered (d : HtmlDoc) (A M B : List Char) (v : Json)
    (h1 : codeBlockStage d = none) (h2 : preStage d = none) (h3 : fenceStage d = none)
    (hs : d.fullText.data = A ++ obr :: (M ++ cbr :: B))
    (hA : obr ∉ A) (hM : cbr ∉ M) (hB : obr ∉ B)
    (hp : Json.parse (String.mk (obr :: (M ++ [cbr]))) = some v) :
    extract_json_from_response d = some v := by
  have hbc : braceCandidates d.fullText = [String.mk (obr :: (M ++ [cbr]))] := by
    unfold braceCandidates
    rw [hs]
    rw [braceCandsF_skip A _ _ hA
      (by simp only [List.length_append, List.length_cons]; omega)]
    rw [show (A ++ obr :: (M ++ cbr :: B)).length + 1 - A.length
        = (M.length + B.length + 2) + 1 by
      simp only [List.length_append, List.length_cons]; omega]
    rw [braceCandsF_open _ M B hM, braceCandsF_nil_of_no_open _ B hB]
    rfl
  unfold extract_json_from_response lateStages braceStage
  rw [h1, h2, h3, hbc]
  simp only [sortDescLen, insertDesc, List.findSome?]
  rw [hp]

/-- Example use of the isolation lemma: a flat bare object amid brace-free
prose is recovered. -/
theorem isolated_flat_object_recovered_example :
    extract_json_from_response
      { codeJsonBlocks := [], preBlocks := [], fullText := "q \x7b\"n\": 2\x7d r" }
      = some (Json.obj [("n", Json.num "2")]) :=
  isolated_flat_object_recovered
    { codeJsonBlocks := [], preBlocks := [], fullText := "q \x7b\"n\": 2\x7d r" }
    ("q ".data) ("\"n\": 2".data) (" r".data) (Json.obj [("n", Json.num "2")])
    rfl rfl rfl (by decide) (by decide) (by decide) (by decide) rfl

/-!
Order lemmas for the loose fallback: the sorted candidate list is a
reordering of the scan's candidates, it is sorted by non-increasing length,
and `findSome?` on it returns the first — hence a longest — success.
-/

theorem mem_insertDesc {x s : String} {l : List String} :
    x ∈ insertDesc s l ↔ x = s ∨ x ∈ l := by
  induction l with
  | nil => simp [insertDesc]
  | cons t ts ih =>
    by_cases h : t.length ≤ s.length
    · simp [insertDesc, h]
    · simp [insertDesc, h, ih]
      tauto

theorem mem_sortDescLen {x : String} {l : List String} :
    x ∈ sortDescLen l ↔ x ∈ l := by
  induction l with
  | nil => simp [sortDescLen]
  | cons s ss ih => simp [sortDescLen, mem_insertDesc, ih]

theorem pairwise_insertDesc {s : String} {l : List String}
    (hl : l.Pairwise (fun a b => b.length ≤ a.length)) :
    (insertDesc s l).Pairwise (fun a b => b.length ≤ a.length) := by
  induction l with
  | nil => simp [insertDesc]
  | cons t ts ih =>
    rw [List.pairwise_cons] at hl
    obtain ⟨ht, hts⟩ := hl
    by_cases h : t.length ≤ s.length
    · simp only [insertDesc, if_pos h]
      refine List.Pairwise.cons ?_ (List.Pairwise.cons ht hts)
      intro b hb
      rcases List.mem_cons.mp hb with rfl | hb
      · exact h
      · exact Nat.le_trans (ht b hb) h
    · simp only [insertDesc, if_neg h]
      refine List.Pairwise.cons ?_ (ih hts)
      intro b hb
      rcases mem_insertDesc.mp hb with rfl | hb
      · exact Nat.le_of_lt (Nat.lt_of_not_le h)
      · exact ht b hb

theorem pairwise_sortDescLen (l : List String) :
    (sortDescLen l).Pairwise (fun a b => b.length ≤ a.length) := by
  induction l with
  | nil => simp [sortDescLen]
  | cons s ss ih =>
    simp only [sortDescLen]
    exact pairwise_insertDesc ih

/-- On a list sorted by non-increasing length, when some member succeeds,
`findSome?` returns the value of a member no shorter than any succeeding
member. -/
theorem findSome?_longest {f : String → Option Json} {l : List String}
    (hl : l.Pairwise (fun a b => b.length ≤ a.length))
    {x : String} (hx : x ∈ l) (hfx : (f x).isSome = true) :
    ∃ y w, y ∈ l ∧ f y = some w ∧ l.findSome? f = some w
      ∧ ∀ z ∈ l, (f z).isSome = true → z.length ≤ y.length := by
  induction l with
  | nil => cases hx
  | cons a l ih =>
    rw [List.pairwise_cons] at hl
    obtain ⟨ha, hl'⟩ := hl
    cases hfa : f a with
    | some w =>
      refine ⟨a, w, List.mem_cons_self a l, hfa, ?_, ?_⟩
      · rw [List.findSome?_cons, hfa]
      · intro z hz _
        rcases List.mem_cons.mp hz with rfl | hz
        · exact Nat.le_refl _
        · exact ha z hz
    | none =>
      have hx' : x ∈ l := by
        rcases List.mem_cons.mp hx with rfl | h
        · rw [hfa] at hfx
          cases hfx
        · exact h
      obtain ⟨y, w, hyl, hfy, hfind, hbound⟩ := ih hl' hx'
      refine ⟨y, w, List.mem_cons_of_mem a hyl, hfy, ?_, ?_⟩
      · rw [List.findSome?_cons, hfa]
        exact hfind
      · intro z hz hfz
        rcases List.mem_cons.mp hz with rfl | hz
        · rw [hfa] at hfz
          cases hfz
        · exact hbound z hz hfz

/-- C3 (amended): when the three stricter strategies yield nothing
parseable, the loose fallback tries exactly the minimal brace-delimited
candidates of the full text — each runs from an opening brace to the
nearest closing brace, so a bare object with nested sub-objects never forms
a candidate — and whenever any candidate is well-formed, extraction returns
the parsed value of a longest well-formed candidate. -/
theorem loose_fallback_longest_candidate (d : HtmlDoc) (c : String)
    (h1 : codeBlockStage d = none) (h2 : preStage d = none) (h3 : fenceStage d = none)
    (hc : c ∈ braceCandidates d.fullText) (hp : (Json.parse c).isSome = true) :
    ∃ cw w, cw ∈ braceCandidates d.fullText ∧ Json.parse cw = some w
      ∧ extract_json_from_response d = some w
      ∧ ∀ z ∈ braceCandidates d.fullText, (Json.parse z).isSome = true
          → z.length ≤ cw.length := by
  obtain ⟨y, w, hyl, hfy, hfind, hbound⟩ :=
    findSome?_longest (pairwise_sortDescLen (braceCandidates d.fullText))
      (mem_sortDescLen.mpr hc) hp
  refine ⟨y, w, mem_sortDescLen.mp hyl, hfy, ?_, ?_⟩
  · simp only [extract_json_from_response, lateStages, braceStage, h1, h2, h3]
    exact hfind
  · intro z hz hfz
    exact hbound z (mem_sortDescLen.mpr hz) hfz

/-- Witness for C3 (amended): with one flat candidate amid prose, the
fallback returns its value and the length bound holds. -/
theorem loose_fallback_longest_candidate_witness :
    ∃ cw w, cw ∈ braceCandidates "x \x7b\"a\": 1\x7d y" ∧ Json.parse cw = some w
      ∧ extract_json_from_response
          { codeJsonBlocks := [], preBlocks := [], fullText := "x \x7b\"a\": 1\x7d y" }
        = some w
      ∧ ∀ z ∈ braceCandidates "x \x7b\"a\": 1\x7d y", (Json.parse z).isSome = true
          → z.length ≤ cw.length :=
  loose_fallback_longest_candidate
    { codeJsonBlocks := [], preBlocks := [], fullText := "x \x7b\"a\": 1\x7d y" }
    "\x7b\"a\": 1\x7d" rfl rfl rfl (by decide) rfl

/-- Counterexample to C3 as stated: a bare, well-formed JSON object with a
nested sub-object sits in the visible text, the three stricter strategies
yield nothing, and extraction still returns `none` — the non-greedy regex
candidate stops at the first closing brace and never parses. -/
theorem nested_bare_object_not_recovered :
    (Json.parse "\x7b\"nutrition\": \x7b\"calories\": \"100\"\x7d\x7d").isSome = true
    ∧ extract_json_from_response
        { codeJsonBlocks := [], preBlocks := [],
          fullText := "The recipe data is "
            ++ "\x7b\"nutrition\": \x7b\"calories\": \"100\"\x7d\x7d" ++ " thanks" }
      = none :=
  ⟨rfl, rfl⟩

/-!
Lemmas about element selection.
-/

/-- The head of a filtered list satisfies the filter predicate. -/
theorem head_filter_pred {α : Type} {p : α → Bool} {l : List α} {x : α} {rest : List α}
    (h : l.filter p = x :: rest) : p x = true := by
  have hx : x ∈ l.filter p := h ▸ List.mem_cons_self x rest
  exact (List.mem_filter.mp hx).2

/-- Whatever happens after the input element is fixed, the submit phase
directs the prompt at that element. -/
theorem sendSubmitPhase_target (env : SendEnv) (arts : List String) (el : Candidate) :
    (sendSubmitPhase env arts el).target = some el := by
  unfold sendSubmitPhase
  split
  · rfl
  · split
    · rfl
    · split <;> rfl

/-- On the filtered path, `send_raw_prompt` targets the head of the
filtered candidate list. -/
theorem send_raw_prompt_target_of_visible (e : SendEnv) (cands : List Candidate)
    (x : Candidate) (rest : List Candidate)
    (hg : sendGather e = some cands) (hv : visibleCandidates cands = x :: rest) :
    (send_raw_prompt e).target = some x := by
  simp only [send_raw_prompt, hg, hv]
  exact sendSubmitPhase_target e [] x

/-- The function `initialize_chat` targets the head of the filtered
candidate list when one exists, and nothing otherwise. -/
theorem initialize_chat_target (e : InitEnv) :
    (initialize_chat e).target
      = (initGather e).bind (fun cands => (visibleCandidates cands).head?) := by
  cases hg : initGather e with
  | none => simp [initialize_chat, hg]
  | some cands =>
    cases hv : visibleCandidates cands with
    | nil => simp [initialize_chat, hg, hv]
    | cons x rest =>
      by_cases hf : e.fillOk = false
      · simp [initialize_chat, hg, hv, hf]
      · cases hb : initSendButton e with
        | none => simp [initialize_chat, hg, hv, hf, hb]
        | some b =>
          by_cases hc : e.clickOk = true <;>
            simp [initialize_chat, hg, hv, hf, hb, hc]

/-- C4 (amended): on the filtered selection paths the decoy is never
chosen — `initialize_chat` never directs the prompt at a decoy candidate,
and `send_raw_prompt` never does so whenever at least one candidate passes
the visibility-and-decoy filter.  (The original claim extended this to the
degraded forced-fallback path, where it fails: with no visible candidate
the first raw candidate is used, decoy or not.) -/
theorem decoy_never_selected_on_filtered_paths :
    (∀ (e : InitEnv) (el : Candidate),
      (initialize_chat e).target = some el → isDecoyField el = false)
    ∧ (∀ (e : SendEnv) (cands : List Candidate) (el : Candidate),
        sendGather e = some cands → visibleCandidates cands ≠ [] →
        (send_raw_prompt e).target = some el → isDecoyField el = false) := by
  constructor
  · intro e el h
    rw [initialize_chat_target] at h
    cases hg : initGather e with
    | none => rw [hg] at h; cases h
    | some cands =>
      rw [hg] at h
      simp only [Option.some_bind] at h
      cases hv : visibleCandidates cands with
      | nil => rw [hv] at h; cases h
      | cons x rest =>
        rw [hv] at h
        have hv' : cands.filter (fun c => c.visible && !(isDecoyField c)) = x :: rest := hv
        have hx := head_filter_pred hv'
        simp only [List.head?] at h
        cases h
        simp only [Bool.and_eq_true, Bool.not_eq_true'] at hx
        exact hx.2
  · intro e cands el hg hne h
    cases hv : visibleCandidates cands with
    | nil => exact absurd hv hne
    | cons x rest =>
      rw [send_raw_prompt_target_of_visible e cands x rest hg hv] at h
      have hv' : cands.filter (fun c => c.visible && !(isDecoyField c)) = x :: rest := hv
      have hx := head_filter_pred hv'
      cases h
      simp only [Bool.and_eq_true, Bool.not_eq_true'] at hx
      exact hx.2

/-- Witness for C4 (amended): a visible ordinary candidate is selected on
both paths and is not the decoy. -/
theorem decoy_never_selected_witness :
    isDecoyField ⟨none, some "user-prompt", true⟩ = false
    ∧ isDecoyField ⟨some "chat-box", none, true⟩ = false :=
  ⟨decoy_never_selected_on_filtered_paths.1
    { shadowRootPresent := false, shadowInputs := [],
      lightInputs := some [⟨none, some "user-prompt", true⟩], fillOk := true,
      shadowSendBtn := none, lightSendBtn := some ⟨none, none, true⟩,
      clickOk := true, writeOk := true }
    ⟨none, some "user-prompt", true⟩ rfl,
   decoy_never_selected_on_filtered_paths.2
    { shadowRootPresent := false, shadowInputs := [],
      lightInputs := some [⟨some "chat-box", none, true⟩], forcedSetOk := true,
      setValueOk := true, shadowSends := [], lightSends := [⟨none, none, true⟩],
      clickOk := true, clickFallbackOk := true, waitCleared := true,
      pageSource := "html", dumpOk := true, diagWriteOk := true }
    [⟨some "chat-box", none, true⟩] ⟨some "chat-box", none, true⟩
    rfl (by decide) rfl⟩

/-- Counterexample to C4 as stated: with the decoy as the only candidate,
the forced-fallback path of `send_raw_prompt` directs the prompt at the
decoy itself (and the send succeeds). -/
theorem decoy_selected_on_forced_fallback :
    (send_raw_prompt
      { shadowRootPresent := false, shadowInputs := [],
        lightInputs := some [⟨some "state_hidden", none, true⟩], forcedSetOk := true,
        setValueOk := true, shadowSends := [], lightSends := [⟨none, none, true⟩],
        clickOk := true, clickFallbackOk := true, waitCleared := true,
        pageSource := "html", dumpOk := true, diagWriteOk := true }).target
      = some ⟨some "state_hidden", none, true⟩
    ∧ isDecoyField ⟨some "state_hidden", none, true⟩ = true :=
  ⟨rfl, rfl⟩

/-- C5 (amended): with zero raw input candidates on both tiers the
prompt-send returns `None` without raising, but writes *two* diagnostic
artifacts — the candidate-diagnostics JSON and the forced-fallback-failure
HTML dump — not exactly one as claimed. -/
theorem zero_candidates_returns_none_two_artifacts (e : SendEnv)
    (h1 : (if e.shadowRootPresent then e.shadowInputs else []) = [])
    (h2 : e.lightInputs = some [])
    (h3 : e.dumpOk = true) (h4 : e.diagWriteOk = true) :
    send_raw_prompt e = ⟨none, none, ["candidates_json", "forced_fallback_failed"]⟩ := by
  have hg : sendGather e = some [] := by
    simp only [sendGather, h1, h2]
    rfl
  simp only [send_raw_prompt, hg, visibleCandidates, List.filter_nil, diagDump,
    sendDump, h3, h4]
  rfl

/-- Witness for C5 (amended): the concrete empty-candidates page state. -/
theorem zero_candidates_two_artifacts_witness :
    send_raw_prompt
      { shadowRootPresent := false, shadowInputs := [], lightInputs := some [],
        forcedSetOk := true, setValueOk := true, shadowSends := [], lightSends := [],
        clickOk := true, clickFallbackOk := true, waitCleared := true,
        pageSource := "page", dumpOk := true, diagWriteOk := true }
      = ⟨none, none, ["candidates_json", "forced_fallback_failed"]⟩ :=
  zero_candidates_returns_none_two_artifacts
    { shadowRootPresent := false, shadowInputs := [], lightInputs := some [],
      forcedSetOk := true, setValueOk := true, shadowSends := [], lightSends := [],
      clickOk := true, clickFallbackOk := true, waitCleared := true,
      pageSource := "page", dumpOk := true, diagWriteOk := true }
    rfl rfl rfl rfl

/-- Counterexample to C5 as stated: in the zero-candidates page state the
operation does return `None`, but the artifact count is two, not exactly
one. -/
theorem zero_candidates_artifact_count :
    (send_raw_prompt
      { shadowRootPresent := true, shadowInputs := [], lightInputs := some [],
        forcedSetOk := true, setValueOk := true, shadowSends := [], lightSends := [],
        clickOk := true, clickFallbackOk := true, waitCleared := true,
        pageSource := "page2", dumpOk := true, diagWriteOk := true }).response = none
    ∧ (send_raw_prompt
      { shadowRootPresent := true, shadowInputs := [], lightInputs := some [],
        forcedSetOk := true, setValueOk := true, shadowSends := [], lightSends := [],
        clickOk := true, clickFallbackOk := true, waitCleared := true,
        pageSource := "page2", dumpOk := true, diagWriteOk := true }).artifacts.length = 2 :=
  ⟨rfl, rfl⟩

/-- C8: when the run reaches submission (input selected, value set, a
visible submit control clicked) and the bounded wait for the control's
disabled state to clear times out, completion is assumed optimistically:
the current page HTML is read and returned — not `None`, and no
exception. -/
theorem timeout_assumed_complete (e : SendEnv) (cands : List Candidate)
    (x : Candidate) (rest : List Candidate)
    (hg : sendGather e = some cands) (hv : visibleCandidates cands = x :: rest)
    (hset : e.setValueOk = true)
    (hbtn : (sendButtons e).filter (fun c => c.visible) ≠ [])
    (hclick : e.clickOk = true)
    (_hwait : e.waitCleared = false) :
    (send_raw_prompt e).response = some e.pageSource := by
  simp only [send_raw_prompt, hg, hv]
  unfold sendSubmitPhase
  rw [if_neg (by simp [hset])]
  cases hb : (sendButtons e).filter (fun c => c.visible) with
  | nil => exact absurd hb hbtn
  | cons s ss =>
    rw [if_pos (by simp [hclick])]

/-- Witness for C8: a full successful submission whose wait timed out
(`waitCleared = false`) still returns the page source. -/
theorem timeout_assumed_complete_witness :
    (send_raw_prompt
      { shadowRootPresent := true, shadowInputs := [⟨none, some "user-prompt", true⟩],
        lightInputs := none, forcedSetOk := true, setValueOk := true,
        shadowSends := [⟨none, none, true⟩], lightSends := [],
        clickOk := true, clickFallbackOk := false, waitCleared := false,
        pageSource := "response html", dumpOk := true, diagWriteOk := true }).response
      = some "response html" :=
  timeout_assumed_complete
    { shadowRootPresent := true, shadowInputs := [⟨none, some "user-prompt", true⟩],
      lightInputs := none, forcedSetOk := true, setValueOk := true,
      shadowSends := [⟨none, none, true⟩], lightSends := [],
      clickOk := true, clickFallbackOk := false, waitCleared := false,
      pageSource := "response html", dumpOk := true, diagWriteOk := true }
    [⟨none, some "user-prompt", true⟩] ⟨none, some "user-prompt", true⟩ []
    rfl rfl rfl (by decide) rfl rfl

/-- The boolean result and the target of `initialize_chat` do not depend on
whether the debug-HTML writes succeed. -/
theorem initialize_chat_write_indep (e : InitEnv) (w w' : Bool) :
    (initialize_chat { e with writeOk := w }).ok
      = (initialize_chat { e with writeOk := w' }).ok
    ∧ (initialize_chat { e with writeOk := w }).target
      = (initialize_chat { e with writeOk := w' }).target := by
  obtain ⟨sr, si, li, fo, ssb, lsb, co, wo⟩ := e
  constructor <;>
    · simp only [initialize_chat, initGather, initSendButton, initDump]
      repeat' split
      all_goals rfl

/-- The returned response and the target of `send_raw_prompt` do not
depend on whether the debug dumps or the candidate-diagnostics write
succeed. -/
theorem send_raw_prompt_write_indep (e : SendEnv) (dw dw' jw jw' : Bool) :
    (send_raw_prompt { e with dumpOk := dw, diagWriteOk := jw }).response
      = (send_raw_prompt { e with dumpOk := dw', diagWriteOk := jw' }).response
    ∧ (send_raw_prompt { e with dumpOk := dw, diagWriteOk := jw }).target
      = (send_raw_prompt { e with dumpOk := dw', diagWriteOk := jw' }).target := by
  obtain ⟨sr, si, li, fso, svo, ss, ls, co, cfo, wc, ps, dko, jko⟩ := e
  constructor <;>
    · simp only [send_raw_prompt, sendGather, sendSubmitPhase, sendButtons,
        sendDump, diagDump]
      repeat' split
      all_goals rfl

/-- C9: diagnostic-artifact writes are strictly best-effort — an exception
raised by the write itself is swallowed inside the helper, so the enclosing
operation's results (the boolean of `initialize_chat`, the response of
`send_raw_prompt`, and the element either directs the prompt at) are the
same whether the writes succeed or fail. -/
theorem diagnostic_writes_best_effort :
    (∀ (e : InitEnv) (w w' : Bool),
      (initialize_chat { e with writeOk := w }).ok
        = (initialize_chat { e with writeOk := w' }).ok
      ∧ (initialize_chat { e with writeOk := w }).target
        = (initialize_chat { e with writeOk := w' }).target)
    ∧ (∀ (e : SendEnv) (dw dw' jw jw' : Bool),
      (send_raw_prompt { e with dumpOk := dw, diagWriteOk := jw }).response
        = (send_raw_prompt { e with dumpOk := dw', diagWriteOk := jw' }).response
      ∧ (send_raw_prompt { e with dumpOk := dw, diagWriteOk := jw }).target
        = (send_raw_prompt { e with dumpOk := dw', diagWriteOk := jw' }).target) :=
  ⟨initialize_chat_write_indep, send_raw_prompt_write_indep⟩

/-- Witness for C9: on a concrete page state, the boolean result of
`initialize_chat` is the same whether its debug write fails or succeeds. -/
theorem diagnostic_writes_best_effort_witness :
    (initialize_chat
      { shadowRootPresent := false, shadowInputs := [], lightInputs := some [],
        fillOk := true, shadowSendBtn := none, lightSendBtn := none,
        clickOk := true, writeOk := false }).ok
      = (initialize_chat
      { shadowRootPresent := false, shadowInputs := [], lightInputs := some [],
        fillOk := true, shadowSendBtn := none, lightSendBtn := none,
        clickOk := true, writeOk := true }).ok :=
  (diagnostic_writes_best_effort.1
    { shadowRootPresent := false, shadowInputs := [], lightInputs := some [],
      fillOk := true, shadowSendBtn := none, lightSendBtn := none,
      clickOk := true, writeOk := true }
    false true).1
